import Mathlib

/-!
Shallow embedding of the PLAF203 pet-feeder protocol engine
(`src/plaf203.py`) and proofs about its specified behaviour.

Python runtime conventions used throughout the embedding:
* timestamps are modelled as integer epoch milliseconds (the device wire
  format); `datetime` arithmetic on values built from epoch milliseconds
  is exact at this resolution;
* a Python statement that raises an exception is modelled by an explicit
  error value (`PyError`); a handler that raises after performing some
  side effects keeps the effects performed so far and records the error;
* `MessageId.generate()` and `Timestamp.now()` are nondeterministic at
  the Python level and are supplied through an explicit environment.
-/

namespace Plaf203

/-- Python exceptions that the modelled code can raise. -/
inductive PyError where
  /-- `NameError`: reference to an undefined name. -/
  | nameError (name : String)
  /-- `ValueError`: e.g. out-of-range `PercentageInt`, unknown enum value. -/
  | valueError (message : String)
  /-- `KeyError`: missing dict key or unknown enum member name. -/
  | keyError (key : String)
  /-- `TypeError`: operation applied to a value of the wrong type. -/
  | typeError (message : String)
deriving DecidableEq, Repr

/-- `MessageId` (src/plaf203.py:254-263): an opaque correlation token. -/
structure MessageId where
  data : String
deriving DecidableEq, Repr

/-- `Timestamp` (src/plaf203.py:266-288). Device timestamps are epoch
milliseconds (`from_timestamp_epoch_ms`); we keep that integer. -/
structure Timestamp where
  epochMs : Int
deriving DecidableEq, Repr

/-- `Timestamp.abs_delta` (src/plaf203.py:287-288): absolute difference of
the two instants, in milliseconds. -/
def Timestamp.abs_delta (a b : Timestamp) : Int :=
  |a.epochMs - b.epochMs|

/-- `Code` (src/plaf203.py:290-305): response status of a message. -/
inductive Code where
  | OK
  | ERROR_1
  | ERROR_2
  | ERROR_3
  | ERROR_4
  | ERROR_DEVICE_NOT_BOUND
deriving DecidableEq, Repr

/-- `Code.is_ok` (src/plaf203.py:301-302). -/
def Code.is_ok (c : Code) : Bool :=
  c = Code.OK

/-- `Code.is_error` (src/plaf203.py:304-305). -/
def Code.is_error (c : Code) : Bool :=
  !(c = Code.OK)

/-- `AgingType` (src/plaf203.py:309-314). -/
inductive AgingType where
  | INVALID
  | NON_SCHEDULED_ENABLED
  | SCHEDULED_ENABLED
deriving DecidableEq, Repr

/-- `NightVision` (src/plaf203.py:316-319). -/
inductive NightVision where
  | AUTOMATIC
  | OPEN
  | CLOSE
deriving DecidableEq, Repr

/-- `Resolution` (src/plaf203.py:321-323). -/
inductive Resolution where
  | P720
  | P1080
deriving DecidableEq, Repr

/-- `VideoRecordMode` (src/plaf203.py:325-327). -/
inductive VideoRecordMode where
  | CONTINUOUS
  | MOTION_DETECTION
deriving DecidableEq, Repr

/-- `MotionDetectionSensitivity` (src/plaf203.py:329-332). -/
inductive MotionDetectionSensitivity where
  | LOW
  | MEDIUM
  | HIGH
deriving DecidableEq, Repr

/-- `MotionDetectionRange` (src/plaf203.py:334-337). -/
inductive MotionDetectionRange where
  | SMALL
  | MEDIUM
  | LARGE
deriving DecidableEq, Repr

/-- `SoundDetectionSensitivity` (src/plaf203.py:339-342). -/
inductive SoundDetectionSensitivity where
  | LOW
  | MEDIUM
  | HIGH
deriving DecidableEq, Repr

/-- `PowerMode` (src/plaf203.py:344-346). -/
inductive PowerMode where
  | USB
  | BATTERY
deriving DecidableEq, Repr

/-- `PowerType` (src/plaf203.py:348-352). -/
inductive PowerType where
  | INVALID
  | USB_ONLY
  | BATTERY_ONLY
  | USB_AND_BATTERY
deriving DecidableEq, Repr

/-- `SdCardState` (src/plaf203.py:354-357). -/
inductive SdCardState where
  | NOT_AVAILABLE
  | AVAILABLE
  | INITIALIZING
deriving DecidableEq, Repr

/-- `SdCardFileSystem` (src/plaf203.py:359-365). -/
inductive SdCardFileSystem where
  | INVALID
  | FAT32
  | FAT
  | EXFAT
  | NTFS
  | UNKNOWN
deriving DecidableEq, Repr

/-- `WifiType` (src/plaf203.py:382-385). -/
inductive WifiType where
  | TYPE_0
  | TYPE_1
  | TYPE_2
deriving DecidableEq, Repr

/-- `ExecStep` (src/plaf203.py:387-391). -/
inductive ExecStep where
  | INVALID
  | GRAIN_START
  | GRAIN_END
  | GRAIN_BLOCKING
deriving DecidableEq, Repr

/-- `GrainOutputType` (src/plaf203.py:404-408). -/
inductive GrainOutputType where
  | INVALID
  | FEED_PLAN
  | MANUAL_FEED
  | MANUAL_FEED_BUTTON
deriving DecidableEq, Repr

/-- `FoodOutputProgress` (src/plaf203.py:2852-2856). -/
inductive FoodOutputProgress where
  | IDLE
  | RUNNING
  | BLOCKED
  | ERROR
deriving DecidableEq, Repr

/-- `PercentageInt` (src/plaf203.py:410-421): an int checked to lie in
[0, 100] at construction. -/
structure PercentageInt where
  value : Int
deriving DecidableEq, Repr

/-- `PercentageInt.__init__` (src/plaf203.py:414-418): raises `ValueError`
outside [0, 100]. -/
def PercentageInt.create (percentage_value : Int) : Except PyError PercentageInt :=
  if percentage_value < 0 || percentage_value > 100 then
    .error (.valueError "Incorrect range for percentage value")
  else
    .ok ⟨percentage_value⟩

/-- `PercentageInt.value_get` (src/plaf203.py:420-421). -/
def PercentageInt.value_get (p : PercentageInt) : Int :=
  p.value

/-- `HourMinTimestamp` (src/plaf203.py:426-475): a time of day held in the
backend's local time zone. -/
structure HourMinTimestamp where
  hour : Int
  minute : Int
deriving DecidableEq, Repr

/-- A JSON scalar as found in a decoded MQTT payload dict. -/
inductive PyValue where
  | str (s : String)
  | int (n : Int)
  | bool (b : Bool)
deriving DecidableEq, Repr

/-- A decoded MQTT payload: a JSON object, keys to scalars. -/
def Payload : Type := List (String × PyValue)

/-- First value stored under `k`, if any. -/
def Payload.lookup? (p : Payload) (k : String) : Option PyValue :=
  match p with
  | [] => none
  | (k2, v) :: rest => if k2 = k then some v else Payload.lookup? rest k

/-- Python `k in payload`. -/
def Payload.holds_key (p : Payload) (k : String) : Bool :=
  (p.lookup? k).isSome

/-- Python `payload[k]`: raises `KeyError` when the key is absent. -/
def Payload.get_key (p : Payload) (k : String) : Except PyError PyValue :=
  match p.lookup? k with
  | some v => .ok v
  | none => .error (.keyError k)

/-- Python `int(v)`: identity on ints, 0/1 on bools, parse on strings
(`ValueError` when unparsable). -/
def PyValue.py_int : PyValue → Except PyError Int
  | .int n => .ok n
  | .bool b => .ok (if b then 1 else 0)
  | .str s =>
      match s.toInt? with
      | some n => .ok n
      | none => .error (.valueError "invalid literal for int()")

/-- The int a value stands for in arithmetic comparisons and by-value enum
lookups: Python bools are ints; strings are not. -/
def PyValue.as_arith_int : PyValue → Except PyError Int
  | .int n => .ok n
  | .bool b => .ok (if b then 1 else 0)
  | .str _ => .error (.typeError "str is not an int")

/-- Python `SomeEnum[v]` member-name lookup: needs a string key. -/
def PyValue.as_member_name : PyValue → Except PyError String
  | .str s => .ok s
  | _ => .error (.keyError "enum member lookup on a non-string")

/-- `HourMinTimestamp.from_mqtt_payload_value` (src/plaf203.py:466-470).
The method's parameter is named `value`, but the body reads
`time_string.split(':')`; `time_string` is defined nowhere in the module,
so the call unconditionally raises `NameError` before anything else runs. -/
def HourMinTimestamp.from_mqtt_payload_value (_value : PyValue) :
    Except PyError HourMinTimestamp :=
  .error (.nameError "time_string")

/-- `Weekday` (src/plaf203.py:478-486) with `.value` the Python enum value. -/
inductive Weekday where
  | INVALID
  | MONDAY
  | TUESDAY
  | WEDNESDAY
  | THURSDAY
  | FRIDAY
  | SATURDAY
  | SUNDAY
deriving DecidableEq, Repr

/-- Numeric `value` of each `Weekday` member (src/plaf203.py:478-486). -/
def Weekday.value : Weekday → Int
  | .INVALID => 0
  | .MONDAY => 1
  | .TUESDAY => 2
  | .WEDNESDAY => 3
  | .THURSDAY => 4
  | .FRIDAY => 5
  | .SATURDAY => 6
  | .SUNDAY => 7

/-- `WeekdaySchedule` (src/plaf203.py:488-531): a Python `set` of weekdays.
The list holds the set's members in iteration order. -/
structure WeekdaySchedule where
  value : List Weekday
deriving DecidableEq, Repr

/-- `WeekdaySchedule.to_mqtt_payload_value` (src/plaf203.py:513-522): the
numeric values of the scheduled days, padded with `[0] * (7 - len(data))`.
Python's `[0] * n` is empty for negative `n`, exactly like truncated `Nat`
subtraction here. -/
def WeekdaySchedule.to_mqtt_payload_value (ws : WeekdaySchedule) : List Int :=
  ws.value.map Weekday.value ++ List.replicate (7 - ws.value.length) 0

/-- `Backend.NTP_SYNC_TIME_DIFF_THRESHOLD_SEC` (src/plaf203.py:2864). -/
def NTP_SYNC_TIME_DIFF_THRESHOLD_SEC : Int := 10

/-- `Backend._device_timestamp_sync_drift_check` (src/plaf203.py:3637-3640):
true iff the two instants differ by strictly less than the threshold
(compared in milliseconds). -/
def device_timestamp_sync_drift_check (timestamp_backend timestamp_device : Timestamp) : Bool :=
  timestamp_backend.abs_delta timestamp_device < NTP_SYNC_TIME_DIFF_THRESHOLD_SEC * 1000

/-- `FoodPlan` (src/plaf203.py:2767-2774). -/
structure FoodPlan where
  id_ : Int
  execution_time : HourMinTimestamp
  scheduled_days : WeekdaySchedule
  enable_audio : Bool
  play_audio_times : Int
  grain_num : Int
deriving DecidableEq, Repr

/-- `FoodPlan.set` (src/plaf203.py:2776-2782): copies every field of
`other` into `self`. -/
def FoodPlan.set (self other : FoodPlan) : FoodPlan :=
  { self with
    id_ := other.id_
    execution_time := other.execution_time
    scheduled_days := other.scheduled_days
    enable_audio := other.enable_audio
    play_audio_times := other.play_audio_times
    grain_num := other.grain_num }

/-- `FoodPlans` (src/plaf203.py:2805-2807). -/
structure FoodPlans where
  plans : List FoodPlan
deriving DecidableEq, Repr

/-- Loop body of `FoodPlans.plan_set` (src/plaf203.py:2817-2828): scan for
the first plan with the same id; on a hit overwrite it in place and stop,
otherwise append the new plan at the end. -/
def FoodPlans.plan_set_list (plans : List FoodPlan) (food_plan : FoodPlan) : List FoodPlan :=
  match plans with
  | [] => [food_plan]
  | plan :: rest =>
      if plan.id_ = food_plan.id_ then
        plan.set food_plan :: rest
      else
        plan :: FoodPlans.plan_set_list rest food_plan

/-- `FoodPlans.plan_set` (src/plaf203.py:2817-2828). -/
def FoodPlans.plan_set (fps : FoodPlans) (food_plan : FoodPlan) : FoodPlans :=
  ⟨FoodPlans.plan_set_list fps.plans food_plan⟩

/-- `Timestamp.from_timestamp_epoch_ms` (src/plaf203.py:274-279). -/
def Timestamp.from_timestamp_epoch_ms (timestamp_epoch_ms : Int) : Timestamp :=
  ⟨timestamp_epoch_ms⟩

/-- `MessageId(payload['msgId'])` (raw store; the protocol only ever carries
32-hex-string correlation ids, so non-string ids are outside the model). -/
def PyValue.as_message_id : PyValue → Except PyError MessageId
  | .str s => .ok ⟨s⟩
  | _ => .error (.typeError "msgId is not a string")

/-- Python `PowerMode(v)` by-value lookup (src/plaf203.py:344-346). -/
def PowerMode.from_value (v : Int) : Except PyError PowerMode :=
  if v = 1 then .ok .USB
  else if v = 2 then .ok .BATTERY
  else .error (.valueError "not a valid PowerMode")

/-- Python `PowerType(v)` by-value lookup (src/plaf203.py:348-352). -/
def PowerType.from_value (v : Int) : Except PyError PowerType :=
  if v = 0 then .ok .INVALID
  else if v = 1 then .ok .USB_ONLY
  else if v = 2 then .ok .BATTERY_ONLY
  else if v = 3 then .ok .USB_AND_BATTERY
  else .error (.valueError "not a valid PowerType")

/-- Python `AgingType(v)` by-value lookup (src/plaf203.py:309-314). -/
def AgingType.from_value (v : Int) : Except PyError AgingType :=
  if v = 0 then .ok .INVALID
  else if v = 1 then .ok .NON_SCHEDULED_ENABLED
  else if v = 2 then .ok .SCHEDULED_ENABLED
  else .error (.valueError "not a valid AgingType")

/-- Python `SdCardState(v)` by-value lookup (src/plaf203.py:354-357). -/
def SdCardState.from_value (v : Int) : Except PyError SdCardState :=
  if v = 0 then .ok .NOT_AVAILABLE
  else if v = 1 then .ok .AVAILABLE
  else if v = 2 then .ok .INITIALIZING
  else .error (.valueError "not a valid SdCardState")

/-- Python `NightVision[name]` member lookup (src/plaf203.py:316-319). -/
def NightVision.from_name (n : String) : Except PyError NightVision :=
  if n = "AUTOMATIC" then .ok .AUTOMATIC
  else if n = "OPEN" then .ok .OPEN
  else if n = "CLOSE" then .ok .CLOSE
  else .error (.keyError n)

/-- Python `Resolution[name]` member lookup (src/plaf203.py:321-323). -/
def Resolution.from_name (n : String) : Except PyError Resolution :=
  if n = "P720" then .ok .P720
  else if n = "P1080" then .ok .P1080
  else .error (.keyError n)

/-- Python `VideoRecordMode[name]` member lookup (src/plaf203.py:325-327). -/
def VideoRecordMode.from_name (n : String) : Except PyError VideoRecordMode :=
  if n = "CONTINUOUS" then .ok .CONTINUOUS
  else if n = "MOTION_DETECTION" then .ok .MOTION_DETECTION
  else .error (.keyError n)

/-- Python `MotionDetectionRange[name]` member lookup (src/plaf203.py:334-337). -/
def MotionDetectionRange.from_name (n : String) : Except PyError MotionDetectionRange :=
  if n = "SMALL" then .ok .SMALL
  else if n = "MEDIUM" then .ok .MEDIUM
  else if n = "LARGE" then .ok .LARGE
  else .error (.keyError n)

/-- Python `MotionDetectionSensitivity[name]` member lookup (src/plaf203.py:329-332). -/
def MotionDetectionSensitivity.from_name (n : String) : Except PyError MotionDetectionSensitivity :=
  if n = "LOW" then .ok .LOW
  else if n = "MEDIUM" then .ok .MEDIUM
  else if n = "HIGH" then .ok .HIGH
  else .error (.keyError n)

/-- Python `SoundDetectionSensitivity[name]` member lookup (src/plaf203.py:339-342). -/
def SoundDetectionSensitivity.from_name (n : String) : Except PyError SoundDetectionSensitivity :=
  if n = "LOW" then .ok .LOW
  else if n = "MEDIUM" then .ok .MEDIUM
  else if n = "HIGH" then .ok .HIGH
  else .error (.keyError n)

/-- `SdCardFileSystem.from_mqtt_payload_value` (src/plaf203.py:367-380):
string comparisons with a permissive `INVALID` fallback; a non-string value
fails every comparison and also falls through to `INVALID`. -/
def SdCardFileSystem.from_mqtt_payload_value (v : PyValue) : SdCardFileSystem :=
  match v with
  | .str s =>
      if s = "FAT32" then .FAT32
      else if s = "FAT" then .FAT
      else if s = "EXFAT" then .EXFAT
      else if s = "NTFS" then .NTFS
      else if s = "unknown type" then .UNKNOWN
      else .INVALID
  | _ => .INVALID

/-- `PercentageInt(v)` on a raw payload value (src/plaf203.py:414-418,925):
the range comparisons work on ints and bools, and raise `TypeError` on a
string. -/
def PercentageInt.create_py (v : PyValue) : Except PyError PercentageInt := do
  PercentageInt.create (← v.as_arith_int)

/-- Decode an optional payload field: absent keys stay absent (`Option.none`),
present keys go through the field's converter. Mirrors the
`if key in payload: data = data | ...` rows of the sparse decoders. -/
def Payload.opt_field (p : Payload) (k : String) (f : PyValue → Except PyError α) :
    Except PyError (Option α) :=
  match p.lookup? k with
  | none => .ok none
  | some v => do .ok (some (← f v))

/-- `AttrPushEventIn` (src/plaf203.py:801-893): the sparse attribute delta.
Fields that the decoder copies straight out of the JSON dict (no conversion
in the source) are kept as raw `PyValue`s. -/
structure AttrPushEventIn where
  message_id : MessageId
  timestamp : Timestamp
  power_mode : Option PowerMode := none
  power_type : Option PowerType := none
  electric_quantity : Option PercentageInt := none
  surplus_grain : Option PyValue := none
  motor_state : Option Int := none
  grain_outlet_state : Option PyValue := none
  enable_audio : Option PyValue := none
  audio_url : Option PyValue := none
  volume : Option PercentageInt := none
  light_switch : Option PyValue := none
  light_aging_type : Option AgingType := none
  lighting_start_time_utc : Option HourMinTimestamp := none
  lighting_end_time_utc : Option HourMinTimestamp := none
  lighting_times : Option Int := none
  sound_switch : Option PyValue := none
  enable_sound : Option PyValue := none
  sound_aging_type : Option AgingType := none
  sound_start_time_utc : Option HourMinTimestamp := none
  sound_end_time_utc : Option HourMinTimestamp := none
  sound_times : Option PyValue := none
  auto_change_mode : Option PyValue := none
  auto_threshold : Option PyValue := none
  camera_switch : Option PyValue := none
  enable_camera : Option PyValue := none
  camera_aging_type : Option AgingType := none
  night_vision : Option NightVision := none
  resolution : Option Resolution := none
  camera_start_time_utc : Option HourMinTimestamp := none
  camera_end_time_utc : Option HourMinTimestamp := none
  video_record_switch : Option PyValue := none
  enable_video_record : Option PyValue := none
  sd_card_state : Option SdCardState := none
  sd_card_file_system : Option SdCardFileSystem := none
  sd_card_total_capacity : Option PyValue := none
  sd_card_used_capacity : Option PyValue := none
  video_record_mode : Option VideoRecordMode := none
  video_record_aging_type : Option AgingType := none
  video_record_start_time_utc : Option HourMinTimestamp := none
  video_record_end_time_utc : Option HourMinTimestamp := none
  feeding_video_switch : Option PyValue := none
  enable_video_start_feeding_plan : Option PyValue := none
  enable_video_after_manual_feeding : Option PyValue := none
  before_feeding_plan_time : Option PyValue := none
  automatic_recording : Option PyValue := none
  after_manual_feeding_time : Option PyValue := none
  video_watermark_switch : Option PyValue := none
  cloud_video_record_switch : Option PyValue := none
  motion_detection_switch : Option PyValue := none
  enable_motion_detection : Option PyValue := none
  motion_detection_aging_type : Option AgingType := none
  motion_detection_range : Option MotionDetectionRange := none
  motion_detection_sensitivity : Option MotionDetectionSensitivity := none
  motion_detection_start_time_utc : Option HourMinTimestamp := none
  motion_detection_end_time_utc : Option HourMinTimestamp := none
  sound_detection_switch : Option PyValue := none
  enable_sound_detection : Option PyValue := none
  sound_detection_aging_type : Option AgingType := none
  sound_detection_sensitivity : Option SoundDetectionSensitivity := none
  sound_detection_start_time_utc : Option HourMinTimestamp := none
  sound_detection_end_time_utc : Option HourMinTimestamp := none
deriving DecidableEq, Repr

/-- `AttrPushEventIn.from_mqtt_payload` (src/plaf203.py:895-1044): fully
sparse decode; every present field is converted exactly as in the source, in
source order, and the first conversion that raises aborts the decode. -/
def AttrPushEventIn.from_mqtt_payload (payload : Payload) :
    Except PyError AttrPushEventIn := do
  let message_id ← (← payload.get_key "msgId").as_message_id
  let timestamp := Timestamp.from_timestamp_epoch_ms (← (← payload.get_key "ts").py_int)
  let power_mode ← payload.opt_field "powerMode"
    (fun v => do PowerMode.from_value (← v.py_int))
  let power_type ← payload.opt_field "powerType"
    (fun v => do PowerType.from_value (← v.py_int))
  let electric_quantity ← payload.opt_field "electricQuantity"
    (fun v => do PercentageInt.create (← v.py_int))
  let surplus_grain ← payload.opt_field "surplusGrain" .ok
  let motor_state ← payload.opt_field "motorState" PyValue.py_int
  let grain_outlet_state ← payload.opt_field "grainOutletState" .ok
  let enable_audio ← payload.opt_field "enableAudio" .ok
  let audio_url ← payload.opt_field "audioUrl" .ok
  let volume ← payload.opt_field "volume" PercentageInt.create_py
  let light_switch ← payload.opt_field "lightSwitch" .ok
  let light_aging_type ← payload.opt_field "lightAgingType"
    (fun v => do AgingType.from_value (← v.as_arith_int))
  let lighting_start_time_utc ← payload.opt_field "lightingStartTimeUtc"
    HourMinTimestamp.from_mqtt_payload_value
  let lighting_end_time_utc ← payload.opt_field "lightingEndTimeUtc"
    HourMinTimestamp.from_mqtt_payload_value
  let lighting_times ← payload.opt_field "lightingTimes" PyValue.py_int
  let sound_switch ← payload.opt_field "soundSwitch" .ok
  let enable_sound ← payload.opt_field "enableSound" .ok
  let sound_aging_type ← payload.opt_field "soundAgingType"
    (fun v => do AgingType.from_value (← v.as_arith_int))
  let sound_start_time_utc ← payload.opt_field "soundStartTimeUtc"
    HourMinTimestamp.from_mqtt_payload_value
  let sound_end_time_utc ← payload.opt_field "soundEndTimeUtc"
    HourMinTimestamp.from_mqtt_payload_value
  let sound_times ← payload.opt_field "soundTimes" .ok
  let auto_change_mode ← payload.opt_field "autoChangeMode" .ok
  let auto_threshold ← payload.opt_field "autoThreshold" .ok
  let camera_switch ← payload.opt_field "cameraSwitch" .ok
  let enable_camera ← payload.opt_field "enableCamera" .ok
  let camera_aging_type ← payload.opt_field "cameraAgingType"
    (fun v => do AgingType.from_value (← v.as_arith_int))
  let night_vision ← payload.opt_field "nightVision"
    (fun v => do NightVision.from_name (← v.as_member_name))
  let resolution ← payload.opt_field "resolution"
    (fun v => do Resolution.from_name (← v.as_member_name))
  let camera_start_time_utc ← payload.opt_field "cameraStartTimeUtc"
    HourMinTimestamp.from_mqtt_payload_value
  let camera_end_time_utc ← payload.opt_field "cameraEndTimeUtc"
    HourMinTimestamp.from_mqtt_payload_value
  let video_record_switch ← payload.opt_field "videoRecordSwitch" .ok
  let enable_video_record ← payload.opt_field "enableVideoRecord" .ok
  let sd_card_state ← payload.opt_field "sdCardState"
    (fun v => do SdCardState.from_value (← v.as_arith_int))
  let sd_card_file_system ← payload.opt_field "sdCardFileSystem"
    (fun v => .ok (SdCardFileSystem.from_mqtt_payload_value v))
  let sd_card_total_capacity ← payload.opt_field "sdCardTotalCapacity" .ok
  let sd_card_used_capacity ← payload.opt_field "sdCardUsedCapacity" .ok
  let video_record_mode ← payload.opt_field "videoRecordMode"
    (fun v => do VideoRecordMode.from_name (← v.as_member_name))
  let video_record_aging_type ← payload.opt_field "videoRecordAgingType"
    (fun v => do AgingType.from_value (← v.as_arith_int))
  let video_record_start_time_utc ← payload.opt_field "videoRecordStartTimeUtc"
    HourMinTimestamp.from_mqtt_payload_value
  let video_record_end_time_utc ← payload.opt_field "videoRecordEndTimeUtc"
    HourMinTimestamp.from_mqtt_payload_value
  let feeding_video_switch ← payload.opt_field "feedingVideoSwitch" .ok
  let enable_video_start_feeding_plan ← payload.opt_field "enableVideoStartFeedingPlan" .ok
  let enable_video_after_manual_feeding ← payload.opt_field "enableVideoAfterManualFeeding" .ok
  let before_feeding_plan_time ← payload.opt_field "beforeFeedingPlanTime" .ok
  let automatic_recording ← payload.opt_field "automaticRecording" .ok
  let after_manual_feeding_time ← payload.opt_field "afterManualFeedingTime" .ok
  let video_watermark_switch ← payload.opt_field "videoWatermarkSwitch" .ok
  let cloud_video_record_switch ← payload.opt_field "cloudVideoRecordSwitch" .ok
  let motion_detection_switch ← payload.opt_field "motionDetectionSwitch" .ok
  let enable_motion_detection ← payload.opt_field "enableMotionDetection" .ok
  let motion_detection_aging_type ← payload.opt_field "motionDetectionAgingType"
    (fun v => do AgingType.from_value (← v.as_arith_int))
  let motion_detection_range ← payload.opt_field "motionDetectionRange"
    (fun v => do MotionDetectionRange.from_name (← v.as_member_name))
  let motion_detection_sensitivity ← payload.opt_field "motionDetectionSensitivity"
    (fun v => do MotionDetectionSensitivity.from_name (← v.as_member_name))
  let motion_detection_start_time_utc ← payload.opt_field "motionDetectionStartTimeUtc"
    HourMinTimestamp.from_mqtt_payload_value
  let motion_detection_end_time_utc ← payload.opt_field "motionDetectionEndTimeUtc"
    HourMinTimestamp.from_mqtt_payload_value
  let sound_detection_switch ← payload.opt_field "soundDetectionSwitch" .ok
  let enable_sound_detection ← payload.opt_field "enableSoundDetection" .ok
  let sound_detection_aging_type ← payload.opt_field "soundDetectionAgingType"
    (fun v => do AgingType.from_value (← v.as_arith_int))
  let sound_detection_sensitivity ← payload.opt_field "soundDetectionSensitivity"
    (fun v => do SoundDetectionSensitivity.from_name (← v.as_member_name))
  let sound_detection_start_time_utc ← payload.opt_field "soundDetectionStartTimeUtc"
    HourMinTimestamp.from_mqtt_payload_value
  let sound_detection_end_time_utc ← payload.opt_field "soundDetectionEndTimeUtc"
    HourMinTimestamp.from_mqtt_payload_value
  .ok
    { message_id, timestamp, power_mode, power_type, electric_quantity,
      surplus_grain, motor_state, grain_outlet_state, enable_audio, audio_url,
      volume, light_switch, light_aging_type, lighting_start_time_utc,
      lighting_end_time_utc, lighting_times, sound_switch, enable_sound,
      sound_aging_type, sound_start_time_utc, sound_end_time_utc, sound_times,
      auto_change_mode, auto_threshold, camera_switch, enable_camera,
      camera_aging_type, night_vision, resolution, camera_start_time_utc,
      camera_end_time_utc, video_record_switch, enable_video_record,
      sd_card_state, sd_card_file_system, sd_card_total_capacity,
      sd_card_used_capacity, video_record_mode, video_record_aging_type,
      video_record_start_time_utc, video_record_end_time_utc,
      feeding_video_switch, enable_video_start_feeding_plan,
      enable_video_after_manual_feeding, before_feeding_plan_time,
      automatic_recording, after_manual_feeding_time, video_watermark_switch,
      cloud_video_record_switch, motion_detection_switch,
      enable_motion_detection, motion_detection_aging_type,
      motion_detection_range, motion_detection_sensitivity,
      motion_detection_start_time_utc, motion_detection_end_time_utc,
      sound_detection_switch, enable_sound_detection,
      sound_detection_aging_type, sound_detection_sensitivity,
      sound_detection_start_time_utc, sound_detection_end_time_utc }

/-- `HeartbeatIn` (src/plaf203.py:534-548): no msgId on this message. -/
structure HeartbeatIn where
  timestamp : Timestamp
  count : Int
  rssi : Int
  wifi_type : WifiType
deriving DecidableEq, Repr

/-- `DeviceStartEventIn` (src/plaf203.py:620-644). -/
structure DeviceStartEventIn where
  message_id : MessageId
  timestamp : Timestamp
  success : Bool
  pid : String
  uuid : String
  mac : String
  wpa3 : Int
  hardware_version : String
  software_version : String
deriving DecidableEq, Repr

/-- `ErrorEventIn` (src/plaf203.py:1558-1572). -/
structure ErrorEventIn where
  message_id : MessageId
  timestamp : Timestamp
  error_code : String
  trigger_time : Timestamp
deriving DecidableEq, Repr

/-- `DetectionEventIn` (src/plaf203.py:1956-1969). -/
structure DetectionEventIn where
  message_id : MessageId
  timestamp : Timestamp
  type_ : String
deriving DecidableEq, Repr

/-- `GetFeedingPlanEventIn` (src/plaf203.py:1373-1383). -/
structure GetFeedingPlanEventIn where
  message_id : MessageId
  timestamp : Timestamp
deriving DecidableEq, Repr

/-- `GrainOutputEventIn` (src/plaf203.py:744-776). -/
structure GrainOutputEventIn where
  message_id : MessageId
  timestamp : Timestamp
  finished : Bool
  type_ : GrainOutputType
  actual_grain_num : Int
  expected_grain_num : Int
  exec_time : Timestamp
  exec_step : ExecStep
  plan_id : Option Int := none
  retried : Option String := none
deriving DecidableEq, Repr

/-- `AttrSetServiceIn` (src/plaf203.py:1067-1079): the device's reply to an
attribute-set request. -/
structure AttrSetServiceIn where
  message_id : MessageId
  timestamp : Timestamp
  code : Code
deriving DecidableEq, Repr

/-- `ManualFeedingServiceIn` (src/plaf203.py:708-720). -/
structure ManualFeedingServiceIn where
  message_id : MessageId
  timestamp : Timestamp
  code : Code
deriving DecidableEq, Repr

/-- `RestoreIn` (src/plaf203.py:2135-2147). -/
structure RestoreIn where
  message_id : MessageId
  timestamp : Timestamp
  code : Code
deriving DecidableEq, Repr

/-- `FeedingPlanIn` (src/plaf203.py:1289-1292). `sync_time` is copied raw
from the JSON in the source decoder. -/
structure FeedingPlanIn where
  plan_id : Int
  sync_time : PyValue
deriving DecidableEq, Repr

/-- `FeedingPlanServiceIn` (src/plaf203.py:1294-1301). -/
structure FeedingPlanServiceIn where
  message_id : MessageId
  timestamp : Timestamp
  code : Code
  plans : List FeedingPlanIn
  msg : Option String := none
deriving DecidableEq, Repr

/-- `AttrGetServiceIn` (src/plaf203.py:1625-1732): the device's full
attribute snapshot, replying to an attribute-read request. -/
structure AttrGetServiceIn where
  message_id : MessageId
  timestamp : Timestamp
  code : Code
  power_mode : PowerMode
  power_type : PowerType
  electric_quantity : PercentageInt
  surplus_grain : Bool
  motor_state : Int
  grain_outlet_state : Bool
  wifi_ssid : String
  enable_audio : Bool
  audio_url : String
  volume : PercentageInt
  enable_light : Bool
  light_switch : Bool
  light_aging_type : AgingType
  enable_sound : Bool
  sound_switch : Bool
  sound_aging_type : AgingType
  auto_change_mode : Bool
  auto_threshold : Int
  camera_switch : Bool
  enable_camera : Bool
  camera_aging_type : AgingType
  resolution : Resolution
  night_vision : NightVision
  video_record_switch : Bool
  enable_video_record : Bool
  sd_card_state : SdCardState
  video_record_mode : VideoRecordMode
  video_record_aging_type : AgingType
  feeding_video_switch : Bool
  enable_video_start_feeding_plan : Bool
  enable_video_after_manual_feeding : Bool
  before_feeding_plan_time : Int
  automatic_recording : Int
  after_manual_feeding_time : Int
  video_watermark_switch : Bool
  cloud_video_record_switch : Bool
  motion_detection_switch : Bool
  enable_motion_detection : Bool
  motion_detection_aging_type : AgingType
  motion_detection_sensitivity : MotionDetectionSensitivity
  motion_detection_range : MotionDetectionRange
  sound_detection_switch : Bool
  enable_sound_detection : Bool
  sound_detection_aging_type : AgingType
  sound_detection_sensitivity : SoundDetectionSensitivity
  lighting_start_time_utc : Option HourMinTimestamp := none
  lighting_end_time_utc : Option HourMinTimestamp := none
  lighting_times : Option Int := none
  sound_start_time_utc : Option HourMinTimestamp := none
  sound_end_time_utc : Option HourMinTimestamp := none
  sound_times : Option Int := none
  camera_start_time_utc : Option HourMinTimestamp := none
  camera_end_time_utc : Option HourMinTimestamp := none
  sd_card_file_system : Option SdCardFileSystem := none
  sd_card_total_capacity : Option Int := none
  sd_card_used_capacity : Option Int := none
  video_record_start_time_utc : Option HourMinTimestamp := none
  video_record_end_time_utc : Option HourMinTimestamp := none
  motion_detection_start_time_utc : Option HourMinTimestamp := none
  motion_detection_end_time_utc : Option HourMinTimestamp := none
  sound_detection_start_time_utc : Option HourMinTimestamp := none
  sound_detection_end_time_utc : Option HourMinTimestamp := none
deriving DecidableEq, Repr

/-- `FeedingPlanOut` (src/plaf203.py:1326-1335): one plan row of the
outbound feeding-plan push. -/
structure FeedingPlanOut where
  plan_id : Int
  execution_time : HourMinTimestamp
  repeat_day : WeekdaySchedule
  enable_audio : Bool
  audio_times : Int
  grain_num : Int
  sync_time : Timestamp
  skip_end_time : Option String := none
deriving DecidableEq, Repr

/-- `GetFeedingPlanOut` (src/plaf203.py:1385-1394): one plan row of the
feeding-plan reply to the device's plan request. -/
structure GetFeedingPlanOut where
  plan_id : Int
  execution_time : HourMinTimestamp
  repeat_day : WeekdaySchedule
  enable_audio : Bool
  audio_times : Int
  grain_num : Int
  sync_time : Timestamp
  skip_end_time : Option String := none
deriving DecidableEq, Repr

/-- The typed outbound messages the modelled handlers publish (each
constructor corresponds to one `*Out` dataclass and its
`to_mqtt_payload`). -/
inductive OutMsg where
  /-- `AttrPushEventOut` (src/plaf203.py:1046-1065): reply to a push event. -/
  | attr_push_event_out (message_id : MessageId) (timestamp : Timestamp) (code : Code)
  /-- `DeviceStartEventOut` (src/plaf203.py:646-665). -/
  | device_start_event_out (message_id : MessageId) (timestamp : Timestamp) (code : Code)
  /-- `GetFeedingPlanEventOut` (src/plaf203.py:1396-1444). -/
  | get_feeding_plan_event_out (message_id : MessageId) (timestamp : Timestamp)
      (code : Code) (plans : List GetFeedingPlanOut)
  /-- `GrainOutputEventOut` (src/plaf203.py:778-799). -/
  | grain_output_event_out (message_id : MessageId) (timestamp : Timestamp)
      (code : Code) (exec_step : ExecStep)
  /-- `GetConfigOut` (src/plaf203.py:1606-1623). -/
  | get_config_out (message_id : MessageId) (timestamp : Timestamp)
  /-- `AttrGetServiceOut` (src/plaf203.py:1842-1859). -/
  | attr_get_service_out (message_id : MessageId) (timestamp : Timestamp)
  /-- `FeedingPlanServiceOut` (src/plaf203.py:1337-1371). -/
  | feeding_plan_service_out (message_id : MessageId) (timestamp : Timestamp)
      (plans : List FeedingPlanOut)
  /-- `NtpSyncOut` (src/plaf203.py:599-618). -/
  | ntp_sync_out (message_id : MessageId) (timestamp : Timestamp)
deriving DecidableEq, Repr

/-- The `msgId` field each outbound payload carries (every modelled outbound
`to_mqtt_payload` includes one). -/
def OutMsg.message_id : OutMsg → MessageId
  | .attr_push_event_out m _ _ => m
  | .device_start_event_out m _ _ => m
  | .get_feeding_plan_event_out m _ _ _ => m
  | .grain_output_event_out m _ _ _ => m
  | .get_config_out m _ => m
  | .attr_get_service_out m _ => m
  | .feeding_plan_service_out m _ _ => m
  | .ntp_sync_out m _ => m

/-- Observable steps a Backend handler performs, in execution order:
publishing an outbound message, invoking one of the normalized upward
callbacks registered via the `*_listen` setters, resetting the heartbeat
watchdog, or writing an error log line. Callback arguments that no claim
depends on are elided. -/
inductive Action where
  | send (m : OutMsg)
  | cb_went_online
  | cb_went_offline
  | cb_ntp_sync_status (ok : Bool)
  | cb_error (message : String)
  | cb_device_info
  | cb_device_wifi_info
  | cb_device_sd_card_info
  | cb_settings_audio
  | cb_settings_camera
  | cb_settings_recording
  | cb_settings_motion_detection
  | cb_settings_sound_detection
  | cb_settings_cloud_video_recording
  | cb_settings_sound
  | cb_settings_button_lights
  | cb_settings_feeding_video
  | cb_settings_buttons_auto_lock
  | cb_state_power
  | cb_state_food
  | cb_food_output_log_start (type_ : GrainOutputType) (expected_grain_num : Int)
  | cb_food_output_log_end (type_ : GrainOutputType) (actual_grain_num : Int)
  | cb_food_output_progress (progress : FoodOutputProgress)
  | watchdog_reset
  | log_error (message : String)
deriving DecidableEq, Repr

/-- Which upward callbacks have been registered on the `Backend` (the
`self.*_callback = None` fields set by the `*_listen` methods,
src/plaf203.py:2908-2933, 2951-3015). Every handler guards each callback
invocation with `if not self.X_callback == None`. -/
structure Callbacks where
  went_online : Bool
  went_offline : Bool
  ntp_sync_status : Bool
  error : Bool
  device_info : Bool
  device_wifi_info : Bool
  device_sd_card_info : Bool
  settings_audio : Bool
  settings_camera : Bool
  settings_recording : Bool
  settings_motion_detection : Bool
  settings_sound_detection : Bool
  settings_cloud_video_recording : Bool
  settings_sound : Bool
  settings_button_lights : Bool
  settings_feeding_video : Bool
  settings_buttons_auto_lock : Bool
  state_power : Bool
  state_food : Bool
  food_output_log_start : Bool
  food_output_log_end : Bool
  food_output_progress : Bool
deriving DecidableEq, Repr

/-- Every upward callback registered. -/
def Callbacks.all_on : Callbacks :=
  ⟨true, true, true, true, true, true, true, true, true, true, true,
   true, true, true, true, true, true, true, true, true, true, true⟩

/-- The mutable session state of the `Backend`
(src/plaf203.py:2935-2945). The two audio fields cache raw attribute
values, hence `PyValue`. -/
structure BackendState where
  last_heartbeat_count : Int
  is_online : Bool
  food_plans : FoodPlans
  settings_audio_enabled : PyValue
  settings_audio_file_url : PyValue
deriving DecidableEq, Repr

/-- Nondeterministic inputs of one handler invocation: the wall clock read
by `Timestamp.now()` and the stream of ids minted by
`MessageId.generate()` (`env.fresh k` is the k-th id generated during the
invocation). -/
structure Env where
  now : Timestamp
  fresh : Nat → MessageId

/-- Outcome of running one handler: the state reached, the observable
actions performed in order, and — when the Python code raises — the
exception, raised after the listed actions were already performed. -/
structure HandlerResult where
  state : BackendState
  actions : List Action
  error : Option PyError
deriving Repr

/-- `if not self.X_callback == None: self.X_callback(...)`. -/
def cb_if (flag : Bool) (a : Action) : List Action :=
  if flag then [a] else []

/-- `Backend._device_timestamp_sync_drift_check_and_adjust`
(src/plaf203.py:3628-3635): on drift beyond the threshold, publish a
forced `NTP_SYNC` carrying a generated id and the current server time. -/
def Backend.device_timestamp_sync_drift_check_and_adjust (env : Env)
    (timestamp_device : Timestamp) : List Action :=
  if device_timestamp_sync_drift_check env.now timestamp_device = false then
    [.send (.ntp_sync_out (env.fresh 0) env.now)]
  else
    []

/-- Plan rows built by the loop of `Backend._device_food_plans_sync`
(src/plaf203.py:3642-3658): every stored plan, stamped with the current
sync time. -/
def Backend.device_food_plans_sync_plans (food_plans : FoodPlans)
    (sync_time_now : Timestamp) : List FeedingPlanOut :=
  food_plans.plans.map fun food_plan =>
    { plan_id := food_plan.id_
      execution_time := food_plan.execution_time
      repeat_day := food_plan.scheduled_days
      enable_audio := food_plan.enable_audio
      audio_times := food_plan.play_audio_times
      grain_num := food_plan.grain_num
      sync_time := sync_time_now }

/-- `Backend._device_food_plans_sync` (src/plaf203.py:3642-3661): serialize
every plan and publish one `FEEDING_PLAN_SERVICE` push. `fresh_index` is the
ordinal of the `MessageId.generate()` call inside the enclosing handler. -/
def Backend.device_food_plans_sync (env : Env) (fresh_index : Nat)
    (food_plans : FoodPlans) : List Action :=
  [.send (.feeding_plan_service_out (env.fresh fresh_index) env.now
      (Backend.device_food_plans_sync_plans food_plans env.now))]

/-- `Backend._heartbeat_cb` (src/plaf203.py:3136-3199). Modelled faithfully,
including two slips in the source:
* line 3140 reads `self.is_online == False` — a comparison whose result is
  discarded, not an assignment — so a decreasing heartbeat count fires the
  offline callback but leaves `is_online` untouched;
* line 3182 formats a log message that references `ntp_sync_in`, a name not
  defined in this method, so the drift-failure branch of the offline→online
  path raises `NameError` after the resync messages were already sent. -/
def Backend.heartbeat_cb (st : BackendState) (cbs : Callbacks) (env : Env)
    (heartbeat_in : HeartbeatIn) : HandlerResult :=
  let restart_acts :=
    if heartbeat_in.count < st.last_heartbeat_count then
      cb_if cbs.went_offline .cb_went_offline
    else
      []
  let st := { st with last_heartbeat_count := heartbeat_in.count }
  if st.is_online = false then
    let acts := restart_acts ++
      [.send (.get_config_out (env.fresh 0) env.now),
       .send (.attr_get_service_out (env.fresh 1) env.now)] ++
      Backend.device_food_plans_sync env 2 st.food_plans
    let st := { st with is_online := true }
    let acts := acts ++
      cb_if cbs.went_online .cb_went_online ++
      cb_if cbs.device_info .cb_device_info ++
      cb_if cbs.device_wifi_info .cb_device_wifi_info
    if device_timestamp_sync_drift_check env.now heartbeat_in.timestamp = false then
      { state := st, actions := acts, error := some (.nameError "ntp_sync_in") }
    else
      { state := st
        actions := acts ++ cb_if cbs.ntp_sync_status (.cb_ntp_sync_status true) ++
          [.watchdog_reset]
        error := none }
  else
    { state := st
      actions := restart_acts ++
        [.send (.attr_get_service_out (env.fresh 0) env.now), .watchdog_reset]
      error := none }

/-- `Backend._attr_push_event_cb` (src/plaf203.py:3413-3523): surface every
settings/state group upward, refresh the audio cache, acknowledge the push
with the device's own msgId, then run the drift check. -/
def Backend.attr_push_event_cb (st : BackendState) (cbs : Callbacks) (env : Env)
    (m : AttrPushEventIn) : HandlerResult :=
  let st :=
    { st with
      settings_audio_enabled :=
        match m.enable_audio with
        | some v => v
        | none => st.settings_audio_enabled
      settings_audio_file_url :=
        match m.audio_url with
        | some v => v
        | none => st.settings_audio_file_url }
  let acts :=
    cb_if cbs.settings_audio .cb_settings_audio ++
    cb_if cbs.settings_camera .cb_settings_camera ++
    cb_if cbs.settings_recording .cb_settings_recording ++
    cb_if cbs.settings_motion_detection .cb_settings_motion_detection ++
    cb_if cbs.settings_sound_detection .cb_settings_sound_detection ++
    cb_if cbs.settings_cloud_video_recording .cb_settings_cloud_video_recording ++
    cb_if cbs.settings_sound .cb_settings_sound ++
    cb_if cbs.settings_button_lights .cb_settings_button_lights ++
    cb_if cbs.state_power .cb_state_power ++
    cb_if cbs.state_food .cb_state_food ++
    cb_if cbs.device_sd_card_info .cb_device_sd_card_info ++
    cb_if cbs.settings_feeding_video .cb_settings_feeding_video ++
    cb_if cbs.settings_buttons_auto_lock .cb_settings_buttons_auto_lock ++
    [.send (.attr_push_event_out m.message_id env.now Code.OK)] ++
    Backend.device_timestamp_sync_drift_check_and_adjust env m.timestamp
  { state := st, actions := acts, error := none }

/-- `Backend._attr_get_service_cb` (src/plaf203.py:3302-3411): surface the
full snapshot upward, refresh the audio cache, run the drift check; this
handler publishes no reply (the snapshot itself is the device's reply to a
server-initiated read). -/
def Backend.attr_get_service_cb (st : BackendState) (cbs : Callbacks) (env : Env)
    (m : AttrGetServiceIn) : HandlerResult :=
  let st :=
    { st with
      settings_audio_enabled := .bool m.enable_audio
      settings_audio_file_url := .str m.audio_url }
  let acts :=
    cb_if cbs.settings_audio .cb_settings_audio ++
    cb_if cbs.settings_camera .cb_settings_camera ++
    cb_if cbs.settings_recording .cb_settings_recording ++
    cb_if cbs.settings_motion_detection .cb_settings_motion_detection ++
    cb_if cbs.settings_sound_detection .cb_settings_sound_detection ++
    cb_if cbs.settings_cloud_video_recording .cb_settings_cloud_video_recording ++
    cb_if cbs.settings_sound .cb_settings_sound ++
    cb_if cbs.settings_button_lights .cb_settings_button_lights ++
    cb_if cbs.state_power .cb_state_power ++
    cb_if cbs.state_food .cb_state_food ++
    cb_if cbs.device_wifi_info .cb_device_wifi_info ++
    cb_if cbs.device_sd_card_info .cb_device_sd_card_info ++
    cb_if cbs.settings_feeding_video .cb_settings_feeding_video ++
    cb_if cbs.settings_buttons_auto_lock .cb_settings_buttons_auto_lock ++
    Backend.device_timestamp_sync_drift_check_and_adjust env m.timestamp
  { state := st, actions := acts, error := none }

/-- `Backend._device_start_event_cb` (src/plaf203.py:3237-3257). On
`success == False` the code calls `_error_report(...)` as a bare name —
there is no module-level `_error_report`, only the method
`Backend._error_report` — so that branch raises `NameError` and the reply
owed to the device is never sent. -/
def Backend.device_start_event_cb (st : BackendState) (cbs : Callbacks) (env : Env)
    (m : DeviceStartEventIn) : HandlerResult :=
  if m.success = true then
    { state := st
      actions :=
        cb_if cbs.device_info .cb_device_info ++
        cb_if cbs.device_wifi_info .cb_device_wifi_info ++
        [.send (.device_start_event_out m.message_id env.now Code.OK)] ++
        Backend.device_timestamp_sync_drift_check_and_adjust env m.timestamp
      error := none }
  else
    { state := st, actions := [], error := some (.nameError "_error_report") }

/-- `Backend._get_feeding_plan_event_cb` (src/plaf203.py:3544-3572): reply
with the stored plan set stamped with the current sync time, echoing the
device's msgId, then run the drift check. -/
def Backend.get_feeding_plan_event_cb (st : BackendState) (_cbs : Callbacks)
    (env : Env) (m : GetFeedingPlanEventIn) : HandlerResult :=
  let plans : List GetFeedingPlanOut :=
    st.food_plans.plans.map fun food_plan =>
      { plan_id := food_plan.id_
        execution_time := food_plan.execution_time
        repeat_day := food_plan.scheduled_days
        enable_audio := food_plan.enable_audio
        audio_times := food_plan.play_audio_times
        grain_num := food_plan.grain_num
        sync_time := env.now }
  { state := st
    actions :=
      [.send (.get_feeding_plan_event_out m.message_id env.now Code.OK plans)] ++
      Backend.device_timestamp_sync_drift_check_and_adjust env m.timestamp
    error := none }

/-- `Backend._grain_output_event_cb` (src/plaf203.py:3590-3618): the
three-phase grain-output tracker. `GRAIN_END` reports the actual quantity,
raises a mismatch error through `self._error_report` when actual differs
from expected, and signals IDLE; every phase is acknowledged with the
device's msgId, then the drift check runs. -/
def Backend.grain_output_event_cb (st : BackendState) (cbs : Callbacks) (env : Env)
    (m : GrainOutputEventIn) : HandlerResult :=
  let step_acts :=
    if m.exec_step = ExecStep.GRAIN_START then
      cb_if cbs.food_output_log_start (.cb_food_output_log_start m.type_ m.expected_grain_num) ++
      cb_if cbs.food_output_progress (.cb_food_output_progress .RUNNING)
    else if m.exec_step = ExecStep.GRAIN_BLOCKING then
      cb_if cbs.food_output_progress (.cb_food_output_progress .BLOCKED)
    else if m.exec_step = ExecStep.GRAIN_END then
      cb_if cbs.food_output_log_end (.cb_food_output_log_end m.type_ m.actual_grain_num) ++
      (if m.expected_grain_num ≠ m.actual_grain_num then
        cb_if cbs.error
          (.cb_error ("Food output actual != expected: " ++ toString m.actual_grain_num ++
            " != " ++ toString m.expected_grain_num))
      else
        []) ++
      cb_if cbs.food_output_progress (.cb_food_output_progress .IDLE)
    else
      [.log_error "Unhandled grain_output_event.exec_step"]
  { state := st
    actions := step_acts ++
      [.send (.grain_output_event_out m.message_id env.now Code.OK m.exec_step)] ++
      Backend.device_timestamp_sync_drift_check_and_adjust env m.timestamp
    error := none }

/-- `Backend._attr_set_service_cb` (src/plaf203.py:3525-3530). On a non-OK
code the source calls `_error_report(...)` as a bare name, which raises
`NameError` instead of reaching the error callback. -/
def Backend.attr_set_service_cb (st : BackendState) (_cbs : Callbacks) (env : Env)
    (m : AttrSetServiceIn) : HandlerResult :=
  if m.code ≠ Code.OK then
    { state := st, actions := [], error := some (.nameError "_error_report") }
  else
    { state := st
      actions := Backend.device_timestamp_sync_drift_check_and_adjust env m.timestamp
      error := none }

/-- `Backend._manual_feeding_service_cb` (src/plaf203.py:3574-3579); same
bare `_error_report` slip on the failure branch. -/
def Backend.manual_feeding_service_cb (st : BackendState) (_cbs : Callbacks)
    (env : Env) (m : ManualFeedingServiceIn) : HandlerResult :=
  if m.code ≠ Code.OK then
    { state := st, actions := [], error := some (.nameError "_error_report") }
  else
    { state := st
      actions := Backend.device_timestamp_sync_drift_check_and_adjust env m.timestamp
      error := none }

/-- `Backend._feeding_plan_service_cb` (src/plaf203.py:3581-3588); same
bare `_error_report` slip on the failure branch. -/
def Backend.feeding_plan_service_cb (st : BackendState) (_cbs : Callbacks)
    (env : Env) (m : FeedingPlanServiceIn) : HandlerResult :=
  if m.code ≠ Code.OK then
    { state := st, actions := [], error := some (.nameError "_error_report") }
  else
    { state := st
      actions := Backend.device_timestamp_sync_drift_check_and_adjust env m.timestamp
      error := none }

/-- `Backend._restore_cb` (src/plaf203.py:3271-3281); bare `_error_report`
slip on the failure branch, offline transition on success. -/
def Backend.restore_cb (st : BackendState) (cbs : Callbacks) (_env : Env)
    (m : RestoreIn) : HandlerResult :=
  if m.code ≠ Code.OK then
    { state := st, actions := [], error := some (.nameError "_error_report") }
  else
    { state := { st with is_online := false }
      actions := cb_if cbs.went_offline .cb_went_offline
      error := none }

/-- The decoded messages that arrive on the event topic, one constructor per
`cmd` branch of `Client._mqtt_recv_event_cb` (src/plaf203.py:2610-2646). -/
inductive EventTopicIn where
  | attr_get (m : AttrGetServiceIn)
  | attr_push (m : AttrPushEventIn)
  | detection (m : DetectionEventIn)
  | device_start (m : DeviceStartEventIn)
  | error_event (m : ErrorEventIn)
  | get_feeding_plan (m : GetFeedingPlanEventIn)
  | grain_output (m : GrainOutputEventIn)
  | unknown (cmd : String)

/-- `Client._mqtt_recv_event_cb` (src/plaf203.py:2610-2646) composed with
the handlers `Backend.initialize` registers (src/plaf203.py:2878-2898).
The Backend registers no `DETECTION_EVENT` and no `ERROR_EVENT` handler, so
for those commands the Client's `if not self.X_callback == None` guard
fails and the message is dropped without any action; an unknown `cmd` is
logged and dropped. -/
def Backend.event_topic_dispatch (st : BackendState) (cbs : Callbacks) (env : Env) :
    EventTopicIn → HandlerResult
  | .attr_get m => Backend.attr_get_service_cb st cbs env m
  | .attr_push m => Backend.attr_push_event_cb st cbs env m
  | .detection _ => { state := st, actions := [], error := none }
  | .device_start m => Backend.device_start_event_cb st cbs env m
  | .error_event _ => { state := st, actions := [], error := none }
  | .get_feeding_plan m => Backend.get_feeding_plan_event_cb st cbs env m
  | .grain_output m => Backend.grain_output_event_cb st cbs env m
  | .unknown cmd =>
      { state := st
        actions := [.log_error ("Unknown cmd " ++ cmd ++ " on event receive")]
        error := none }

/-- Does the Backend register a handler for this event-topic command
(src/plaf203.py:2878-2898)? `DETECTION_EVENT` and `ERROR_EVENT` have none. -/
def EventTopicIn.has_registered_handler : EventTopicIn → Bool
  | .detection _ => false
  | .error_event _ => false
  | .unknown _ => false
  | _ => true

/-- The device timestamp (`ts` field) carried by an event-topic message. -/
def EventTopicIn.device_timestamp : EventTopicIn → Timestamp
  | .attr_get m => m.timestamp
  | .attr_push m => m.timestamp
  | .detection m => m.timestamp
  | .device_start m => m.timestamp
  | .error_event m => m.timestamp
  | .get_feeding_plan m => m.timestamp
  | .grain_output m => m.timestamp
  | .unknown _ => ⟨0⟩

/-- Is this action the publication of an `ATTR_GET_SERVICE` request? -/
def Action.is_send_attr_get : Action → Bool
  | .send (.attr_get_service_out _ _) => true
  | _ => false

/-- Is this action the publication of a `GET_CONFIG` request? -/
def Action.is_send_get_config : Action → Bool
  | .send (.get_config_out _ _) => true
  | _ => false

/-- Is this action the publication of a `FEEDING_PLAN_SERVICE` push? -/
def Action.is_send_feeding_plan : Action → Bool
  | .send (.feeding_plan_service_out _ _ _) => true
  | _ => false

/-- Is this action the publication of a forced `NTP_SYNC`? -/
def Action.is_send_ntp_sync : Action → Bool
  | .send (.ntp_sync_out _ _) => true
  | _ => false

/-- Is this action an invocation of the drift-status callback? -/
def Action.is_ntp_sync_status_cb : Action → Bool
  | .cb_ntp_sync_status _ => true
  | _ => false

/-- Is this action the publication of any outbound message? -/
def Action.is_send : Action → Bool
  | .send _ => true
  | _ => false

/-- A fixed evaluation environment for the concrete scenarios: wall clock at
epoch-millisecond 1700000000000, deterministic generated ids. -/
def scenario_env : Env :=
  { now := ⟨1700000000000⟩
    fresh := fun k => ⟨"generated-" ++ toString k⟩ }

/-- A concrete stored feeding plan. -/
def scenario_plan : FoodPlan :=
  { id_ := 1
    execution_time := ⟨8, 30⟩
    scheduled_days := ⟨[.MONDAY, .WEDNESDAY]⟩
    enable_audio := false
    play_audio_times := 0
    grain_num := 2 }

/-- A second concrete feeding plan with a different id. -/
def scenario_plan_two : FoodPlan :=
  { id_ := 2
    execution_time := ⟨18, 0⟩
    scheduled_days := ⟨[.FRIDAY]⟩
    enable_audio := true
    play_audio_times := 3
    grain_num := 1 }

/-- A concrete stored plan set. -/
def scenario_plans : FoodPlans := ⟨[scenario_plan]⟩

/-- Session state: ONLINE, last heartbeat count 52. -/
def scenario_state_online : BackendState :=
  { last_heartbeat_count := 52
    is_online := true
    food_plans := scenario_plans
    settings_audio_enabled := .bool false
    settings_audio_file_url := .str "" }

/-- Session state: OFFLINE, no heartbeat seen yet. -/
def scenario_state_offline : BackendState :=
  { last_heartbeat_count := 0
    is_online := false
    food_plans := scenario_plans
    settings_audio_enabled := .bool false
    settings_audio_file_url := .str "" }

/-- A heartbeat whose count dropped to 3, clock in sync. -/
def scenario_heartbeat_drop : HeartbeatIn :=
  { timestamp := ⟨1700000000000⟩
    count := 3
    rssi := -50
    wifi_type := .TYPE_1 }

/-- A heartbeat with count 41, clock in sync. -/
def scenario_heartbeat_41 : HeartbeatIn :=
  { timestamp := ⟨1700000000500⟩
    count := 41
    rssi := -50
    wifi_type := .TYPE_1 }

/-- A steady-state heartbeat whose device clock is a full hour off. -/
def scenario_heartbeat_drifted : HeartbeatIn :=
  { timestamp := ⟨1700003600000⟩
    count := 53
    rssi := -50
    wifi_type := .TYPE_1 }

/-- A `GRAIN_START` grain-output event expecting 5 portions. -/
def scenario_grain_start : GrainOutputEventIn :=
  { message_id := ⟨"11112222333344445555666677778888"⟩
    timestamp := ⟨1700000000000⟩
    finished := false
    type_ := .MANUAL_FEED
    actual_grain_num := 0
    expected_grain_num := 5
    exec_time := ⟨1700000000000⟩
    exec_step := .GRAIN_START }

/-- The matching `GRAIN_END` grain-output event reporting only 4 portions. -/
def scenario_grain_end : GrainOutputEventIn :=
  { message_id := ⟨"9999aaaabbbbccccddddeeeeffff0000"⟩
    timestamp := ⟨1700000001000⟩
    finished := true
    type_ := .MANUAL_FEED
    actual_grain_num := 4
    expected_grain_num := 5
    exec_time := ⟨1700000001000⟩
    exec_step := .GRAIN_END }

/-- An attribute-set reply carrying a non-OK code. -/
def scenario_attr_set_err : AttrSetServiceIn :=
  { message_id := ⟨"0000111122223333444455556666777a"⟩
    timestamp := ⟨1700000000000⟩
    code := .ERROR_1 }

/-- A device-initiated `ERROR_EVENT` carrying a msgId owed a reply. -/
def scenario_error_event : ErrorEventIn :=
  { message_id := ⟨"feedfacefeedfacefeedfacefeedface"⟩
    timestamp := ⟨1700000000000⟩
    error_code := "E1"
    trigger_time := ⟨1700000000000⟩ }

/-- A sparse `ATTR_PUSH_EVENT` payload whose only attribute field is the
UTC time-of-day string for the button-light schedule start. -/
def scenario_attr_push_payload : Payload :=
  [("cmd", .str "ATTR_PUSH_EVENT"),
   ("msgId", .str "0123456789abcdef0123456789abcdef"),
   ("ts", .int 1700000000000),
   ("lightingStartTimeUtc", .str "08:30")]

/-- A sparse `ATTR_PUSH_EVENT` message with a device clock an hour off. -/
def scenario_attr_push_drifted : AttrPushEventIn :=
  { message_id := ⟨"0123456789abcdef0123456789abcdef"⟩
    timestamp := ⟨1700003600000⟩ }

/-- `FoodPlan.set` overwrites every field, so the result is the argument. -/
theorem FoodPlan.set_eq (self other : FoodPlan) : self.set other = other := rfl

/-- When no stored plan has the new plan's id, the scan falls through and
the plan is appended. -/
theorem plan_set_list_append (plans : List FoodPlan) (fp : FoodPlan)
    (h : ∀ p ∈ plans, p.id_ ≠ fp.id_) :
    FoodPlans.plan_set_list plans fp = plans ++ [fp] := by
  induction plans with
  | nil => rfl
  | cons p rest ih =>
      have hp : p.id_ ≠ fp.id_ := h p (by simp)
      simp [FoodPlans.plan_set_list, hp, ih fun q hq => h q (by simp [hq])]

/-- The scan overwrites the first stored plan carrying the new plan's id
and leaves everything else in place. -/
theorem plan_set_list_replace (l1 l2 : List FoodPlan) (p fp : FoodPlan)
    (hid : p.id_ = fp.id_) (h : ∀ q ∈ l1, q.id_ ≠ fp.id_) :
    FoodPlans.plan_set_list (l1 ++ p :: l2) fp = l1 ++ fp :: l2 := by
  induction l1 with
  | nil => simp [FoodPlans.plan_set_list, hid, FoodPlan.set_eq]
  | cons q rest ih =>
      have hq : q.id_ ≠ fp.id_ := h q (by simp)
      simp [FoodPlans.plan_set_list, hq, ih fun r hr => h r (by simp [hr])]

/-- Applying the scan twice with the same plan gives the same list as
applying it once. -/
theorem plan_set_list_idem (plans : List FoodPlan) (fp : FoodPlan) :
    FoodPlans.plan_set_list (FoodPlans.plan_set_list plans fp) fp =
      FoodPlans.plan_set_list plans fp := by
  induction plans with
  | nil => simp [FoodPlans.plan_set_list, FoodPlan.set_eq]
  | cons p rest ih =>
      by_cases hp : p.id_ = fp.id_
      · simp [FoodPlans.plan_set_list, hp, FoodPlan.set_eq]
      · simp [FoodPlans.plan_set_list, hp, ih]

/-- C9: `FoodPlans.plan_set` is keyed by plan id — with a fresh id the plan
is appended, with an existing id the first matching plan's fields are
replaced in place — and re-applying the same plan is idempotent: the stored
plan set's content does not change. -/
theorem food_plans_plan_set_keyed_and_idempotent :
    (∀ (fps : FoodPlans) (fp : FoodPlan), (∀ p ∈ fps.plans, p.id_ ≠ fp.id_) →
      (fps.plan_set fp).plans = fps.plans ++ [fp])
    ∧ (∀ (l1 l2 : List FoodPlan) (p fp : FoodPlan), p.id_ = fp.id_ →
        (∀ q ∈ l1, q.id_ ≠ fp.id_) →
        (FoodPlans.plan_set ⟨l1 ++ p :: l2⟩ fp).plans = l1 ++ fp :: l2)
    ∧ (∀ (fps : FoodPlans) (fp : FoodPlan),
        (fps.plan_set fp).plan_set fp = fps.plan_set fp) := by
  refine ⟨fun fps fp h => plan_set_list_append fps.plans fp h,
    fun l1 l2 p fp hid h => plan_set_list_replace l1 l2 p fp hid h,
    fun fps fp => ?_⟩
  show FoodPlans.mk (FoodPlans.plan_set_list (FoodPlans.plan_set_list fps.plans fp) fp) = _
  rw [plan_set_list_idem]
  rfl

/-- C9 witness: a plan with a new id is appended; re-sending the stored
plan with identical fields changes nothing. -/
theorem food_plans_plan_set_keyed_and_idempotent_witness :
    (scenario_plans.plan_set scenario_plan_two).plans =
      scenario_plans.plans ++ [scenario_plan_two]
    ∧ (FoodPlans.plan_set ⟨[] ++ scenario_plan :: []⟩ scenario_plan).plans =
      [] ++ scenario_plan :: []
    ∧ (scenario_plans.plan_set scenario_plan).plan_set scenario_plan =
      scenario_plans.plan_set scenario_plan :=
  ⟨food_plans_plan_set_keyed_and_idempotent.1 scenario_plans scenario_plan_two
      (by decide),
   food_plans_plan_set_keyed_and_idempotent.2.1 [] [] scenario_plan scenario_plan
      (by decide) (by decide),
   food_plans_plan_set_keyed_and_idempotent.2.2 scenario_plans scenario_plan⟩

/-- C10: for a schedule of at most 7 distinct weekdays,
`to_mqtt_payload_value` is a list of exactly 7 integers — the scheduled
days' numeric values followed by zero padding. -/
theorem weekday_schedule_payload_seven (ws : WeekdaySchedule)
    (h_nodup : ws.value.Nodup) (h_len : ws.value.length ≤ 7) :
    ws.to_mqtt_payload_value.length = 7
    ∧ ws.to_mqtt_payload_value.take ws.value.length = ws.value.map Weekday.value
    ∧ ws.to_mqtt_payload_value.drop ws.value.length =
        List.replicate (7 - ws.value.length) 0 := by
  have hmap : (ws.value.map Weekday.value).length = ws.value.length :=
    List.length_map _ _
  have hdef : ws.to_mqtt_payload_value =
      ws.value.map Weekday.value ++ List.replicate (7 - ws.value.length) 0 := rfl
  refine ⟨?_, ?_, ?_⟩
  · rw [hdef, List.length_append, hmap, List.length_replicate]
    omega
  · rw [hdef, ← hmap, List.take_left]
  · rw [hdef, ← hmap, List.drop_left]

/-- C10 witness: a two-day schedule encodes to exactly 7 integers. -/
theorem weekday_schedule_payload_seven_witness :
    (WeekdaySchedule.mk [.MONDAY, .WEDNESDAY]).to_mqtt_payload_value.length = 7
    ∧ (WeekdaySchedule.mk [.MONDAY, .WEDNESDAY]).to_mqtt_payload_value.take 2 =
        [Weekday.MONDAY, Weekday.WEDNESDAY].map Weekday.value
    ∧ (WeekdaySchedule.mk [.MONDAY, .WEDNESDAY]).to_mqtt_payload_value.drop 2 =
        List.replicate 5 0 :=
  weekday_schedule_payload_seven ⟨[.MONDAY, .WEDNESDAY]⟩ (by decide) (by decide)

/-- C5: the drift check accepts exactly the instants whose distance is
strictly below the 10-second threshold; in particular it accepts equal
times and a 9-second skew and rejects an 11-second skew. -/
theorem drift_check_threshold_spec :
    (∀ a b : Timestamp, device_timestamp_sync_drift_check a b = true ↔
      |a.epochMs - b.epochMs| < NTP_SYNC_TIME_DIFF_THRESHOLD_SEC * 1000)
    ∧ (∀ t : Timestamp, device_timestamp_sync_drift_check t t = true)
    ∧ (∀ t : Timestamp,
        device_timestamp_sync_drift_check t ⟨t.epochMs + 9 * 1000⟩ = true)
    ∧ (∀ t : Timestamp,
        device_timestamp_sync_drift_check t ⟨t.epochMs + 11 * 1000⟩ = false) := by
  refine ⟨fun a b => ?_, fun t => ?_, fun t => ?_, fun t => ?_⟩
  · simp [device_timestamp_sync_drift_check, Timestamp.abs_delta]
  · simp [device_timestamp_sync_drift_check, Timestamp.abs_delta,
      NTP_SYNC_TIME_DIFF_THRESHOLD_SEC]
  · have h : t.epochMs - (t.epochMs + 9 * 1000) = -9000 := by ring
    simp [device_timestamp_sync_drift_check, Timestamp.abs_delta, h,
      NTP_SYNC_TIME_DIFF_THRESHOLD_SEC]
  · have h : t.epochMs - (t.epochMs + 11 * 1000) = -11000 := by ring
    simp [device_timestamp_sync_drift_check, Timestamp.abs_delta, h,
      NTP_SYNC_TIME_DIFF_THRESHOLD_SEC]

/-- C6: decoding a sparse `ATTR_PUSH_EVENT` whose payload carries a UTC
"HH:MM" time-of-day field does not produce the local time of day — it
raises `NameError` because `HourMinTimestamp.from_mqtt_payload_value` reads
the undefined name `time_string` instead of its `value` parameter. -/
theorem attr_push_time_field_decode_raises :
    AttrPushEventIn.from_mqtt_payload scenario_attr_push_payload =
      .error (.nameError "time_string") := by
  rfl

/-- C1: a device-initiated `ERROR_EVENT` carries a msgId owed a reply, but
`Backend.initialize` registers no handler for it, so the event-topic
dispatch drops the message: no outbound envelope — in particular no reply
carrying the device's msgId — is ever emitted for it. -/
theorem error_event_receives_no_reply (st : BackendState) (cbs : Callbacks)
    (env : Env) (m : ErrorEventIn) :
    Backend.event_topic_dispatch st cbs env (.error_event m) =
      { state := st, actions := [], error := none } := by
  rfl

/-- C2: a heartbeat whose count dropped from 52 to 3 fires the went-offline
callback, but the session's online flag stays `true` — line 3140 compares
`self.is_online == False` instead of assigning — so no OFFLINE transition
happens and the handler proceeds on the steady-state ONLINE path. -/
theorem heartbeat_count_drop_keeps_online_flag :
    (Backend.heartbeat_cb scenario_state_online Callbacks.all_on scenario_env
        scenario_heartbeat_drop).state.is_online = true
    ∧ Action.cb_went_offline ∈
        (Backend.heartbeat_cb scenario_state_online Callbacks.all_on scenario_env
          scenario_heartbeat_drop).actions
    ∧ (Backend.heartbeat_cb scenario_state_online Callbacks.all_on scenario_env
        scenario_heartbeat_drop).actions =
      [Action.cb_went_offline,
       .send (.attr_get_service_out (scenario_env.fresh 0) scenario_env.now),
       .watchdog_reset] := by
  refine ⟨rfl, ?_, rfl⟩
  show Action.cb_went_offline ∈
    [Action.cb_went_offline,
     .send (.attr_get_service_out (scenario_env.fresh 0) scenario_env.now),
     .watchdog_reset]
  exact List.mem_cons_self _ _

/-- C3 counterexample: on the OFFLINE→ONLINE heartbeat (count 41 while
offline) the engine publishes the `GET_CONFIG` request strictly before the
`ATTR_GET_SERVICE` request, so the claimed order — attribute read first,
then config read — is false. -/
theorem heartbeat_resync_attr_read_is_not_first :
    ¬ ((Backend.heartbeat_cb scenario_state_offline Callbacks.all_on scenario_env
          scenario_heartbeat_41).actions.findIdx Action.is_send_attr_get <
        (Backend.heartbeat_cb scenario_state_offline Callbacks.all_on scenario_env
          scenario_heartbeat_41).actions.findIdx Action.is_send_get_config) := by
  decide

/-- C3 (amended): on a heartbeat received while OFFLINE (count not
decreasing, clock in sync) the engine publishes the config/version read
request first, then the full attribute-read request, then the full
feeding-plan push, in that order, before setting the online flag and
notifying the went-online callback. -/
theorem heartbeat_offline_to_online_resync (st : BackendState) (env : Env)
    (hb : HeartbeatIn)
    (h_off : st.is_online = false)
    (h_count : ¬ hb.count < st.last_heartbeat_count)
    (h_drift : device_timestamp_sync_drift_check env.now hb.timestamp = true) :
    Backend.heartbeat_cb st Callbacks.all_on env hb =
      { state := { st with last_heartbeat_count := hb.count, is_online := true }
        actions :=
          [.send (.get_config_out (env.fresh 0) env.now),
           .send (.attr_get_service_out (env.fresh 1) env.now),
           .send (.feeding_plan_service_out (env.fresh 2) env.now
             (Backend.device_food_plans_sync_plans st.food_plans env.now)),
           .cb_went_online, .cb_device_info, .cb_device_wifi_info,
           .cb_ntp_sync_status true, .watchdog_reset]
        error := none } := by
  simp [Backend.heartbeat_cb, Backend.device_food_plans_sync, cb_if,
    Callbacks.all_on, h_off, h_count, h_drift]

/-- C3 witness: heartbeat count 41 while OFFLINE runs the resync and ends
ONLINE. -/
theorem heartbeat_offline_to_online_resync_witness :
    scenario_state_offline.is_online = false
    ∧ (Backend.heartbeat_cb scenario_state_offline Callbacks.all_on scenario_env
        scenario_heartbeat_41).state.is_online = true :=
  ⟨by decide, by
    rw [heartbeat_offline_to_online_resync _ _ _ (by decide) (by decide) (by decide)]⟩

/-- C4 counterexample: a steady-state heartbeat received while ONLINE whose
device clock is a full hour off produces only the attribute re-read and the
watchdog reset — no forced `NTP_SYNC` and no drift-status callback — so the
drift check does not run on this timestamp-carrying message. -/
theorem steady_state_heartbeat_skips_drift_check :
    device_timestamp_sync_drift_check scenario_env.now
        scenario_heartbeat_drifted.timestamp = false
    ∧ (Backend.heartbeat_cb scenario_state_online Callbacks.all_on scenario_env
        scenario_heartbeat_drifted).actions =
      [.send (.attr_get_service_out (scenario_env.fresh 0) scenario_env.now),
       .watchdog_reset]
    ∧ ∀ a ∈ (Backend.heartbeat_cb scenario_state_online Callbacks.all_on
        scenario_env scenario_heartbeat_drifted).actions,
        Action.is_send_ntp_sync a = false ∧ Action.is_ntp_sync_status_cb a = false := by
  decide

/-- C4 (amended): every event-topic message processed by a registered
handler runs the drift check when the handler completes: if the device
timestamp drifts beyond the threshold, the forced `NTP_SYNC` is published.
(Steady-state ONLINE heartbeats are the exception the counterexample
shows.) -/
theorem event_topic_registered_handler_runs_drift_check (st : BackendState)
    (cbs : Callbacks) (env : Env) (msg : EventTopicIn)
    (h_handler : msg.has_registered_handler = true)
    (h_drift : device_timestamp_sync_drift_check env.now msg.device_timestamp = false)
    (h_done : (Backend.event_topic_dispatch st cbs env msg).error = none) :
    Action.send (.ntp_sync_out (env.fresh 0) env.now) ∈
      (Backend.event_topic_dispatch st cbs env msg).actions := by
  cases msg with
  | attr_get m =>
      simp only [EventTopicIn.device_timestamp] at h_drift
      simp [Backend.event_topic_dispatch, Backend.attr_get_service_cb,
        Backend.device_timestamp_sync_drift_check_and_adjust, h_drift]
  | attr_push m =>
      simp only [EventTopicIn.device_timestamp] at h_drift
      simp [Backend.event_topic_dispatch, Backend.attr_push_event_cb,
        Backend.device_timestamp_sync_drift_check_and_adjust, h_drift]
  | detection m => simp [EventTopicIn.has_registered_handler] at h_handler
  | device_start m =>
      simp only [EventTopicIn.device_timestamp] at h_drift
      by_cases hs : m.success = true
      · simp [Backend.event_topic_dispatch, Backend.device_start_event_cb,
          Backend.device_timestamp_sync_drift_check_and_adjust, hs, h_drift]
      · simp [Backend.event_topic_dispatch, Backend.device_start_event_cb, hs]
          at h_done
  | error_event m => simp [EventTopicIn.has_registered_handler] at h_handler
  | get_feeding_plan m =>
      simp only [EventTopicIn.device_timestamp] at h_drift
      simp [Backend.event_topic_dispatch, Backend.get_feeding_plan_event_cb,
        Backend.device_timestamp_sync_drift_check_and_adjust, h_drift]
  | grain_output m =>
      simp only [EventTopicIn.device_timestamp] at h_drift
      simp [Backend.event_topic_dispatch, Backend.grain_output_event_cb,
        Backend.device_timestamp_sync_drift_check_and_adjust, h_drift]
  | unknown cmd => simp [EventTopicIn.has_registered_handler] at h_handler

/-- C4 witness: a sparse attribute push with an hour of clock drift makes
the engine publish a forced `NTP_SYNC`. -/
theorem event_topic_registered_handler_runs_drift_check_witness :
    Action.send (.ntp_sync_out (scenario_env.fresh 0) scenario_env.now) ∈
      (Backend.event_topic_dispatch scenario_state_online Callbacks.all_on
        scenario_env (.attr_push scenario_attr_push_drifted)).actions :=
  event_topic_registered_handler_runs_drift_check _ _ _ _ (by decide) (by decide)
    (by decide)

/-- C7: a two-way service reply carrying a non-OK code (attribute-set shown
here; manual-feeding, feeding-plan and restore share the same line) does
not reach the registered generic error callback: the handler calls
`_error_report` as a bare name and raises `NameError`, performing no action
at all. -/
theorem attr_set_non_ok_code_raises_name_error (st : BackendState)
    (cbs : Callbacks) (env : Env) (m : AttrSetServiceIn)
    (h : m.code ≠ Code.OK) :
    Backend.attr_set_service_cb st cbs env m =
      { state := st, actions := [], error := some (.nameError "_error_report") } := by
  simp [Backend.attr_set_service_cb, h]

/-- C7 witness: an attribute-set reply with code `ERROR_1` raises
`NameError` and invokes no callback. -/
theorem attr_set_non_ok_code_raises_name_error_witness :
    scenario_attr_set_err.code ≠ Code.OK
    ∧ Backend.attr_set_service_cb scenario_state_online Callbacks.all_on
        scenario_env scenario_attr_set_err =
      { state := scenario_state_online, actions := []
        error := some (.nameError "_error_report") } :=
  ⟨by decide,
   attr_set_non_ok_code_raises_name_error _ _ _ _ (by decide)⟩

/-- C8: a `GRAIN_START` expecting 5 portions followed directly by a
`GRAIN_END` reporting 4 raises the quantity-mismatch error through the
error callback and emits an IDLE progress signal. -/
theorem grain_start_then_end_mismatch :
    Action.cb_food_output_progress .RUNNING ∈
      (Backend.grain_output_event_cb scenario_state_online Callbacks.all_on
        scenario_env scenario_grain_start).actions
    ∧ Action.cb_error "Food output actual != expected: 4 != 5" ∈
      (Backend.grain_output_event_cb
        (Backend.grain_output_event_cb scenario_state_online Callbacks.all_on
          scenario_env scenario_grain_start).state
        Callbacks.all_on scenario_env scenario_grain_end).actions
    ∧ Action.cb_food_output_progress .IDLE ∈
      (Backend.grain_output_event_cb
        (Backend.grain_output_event_cb scenario_state_online Callbacks.all_on
          scenario_env scenario_grain_start).state
        Callbacks.all_on scenario_env scenario_grain_end).actions := by
  decide

end Plaf203
